import Mathlib

/-!
Shallow embedding of the two rustdoc-generated "implementors" JavaScript
files of this repository:

  * src/api/implementors/wasmtime/component/func/typed/trait.Lower.js
  * src/unnamed/part_000

Each file is an immediately-invoked function expression (IIFE) of the form

    (function() {var implementors = { ...literal table... };
     if (window.register_implementors) {
       window.register_implementors(implementors);
     } else {
       window.pending_implementors = implementors;
     }})()

The embedding models JavaScript values (`JSVal`), the global `window`
object as a total map from property names to values (`Window`), and the
observable effect of evaluating one file (`Effect`): the calls it makes
through `window` properties, the global writes it performs, and whether
it throws.  The callback `window.register_implementors`, when invoked, is
external code out of scope of these files; its invocation is recorded as
an observable call event and its own effects are not part of a file's
effect.
-/

/-- JavaScript values, as far as these files need them: the primitives
that can sit in a `window` property, plus arrays, object literals
(ordered field lists, as in a JS object literal) and opaque callable
function values. -/
inductive JSVal where
  | undefined : JSVal
  | null : JSVal
  | boolean : Bool → JSVal
  | number : Int → JSVal
  | str : String → JSVal
  | arr : List JSVal → JSVal
  | obj : List (String × JSVal) → JSVal
  | closure : Nat → JSVal

/-- JavaScript truthiness: `undefined`, `null`, `false`, `0` and `""` are
falsy; every object, array, function, other number and other string is
truthy. -/
def JSVal.truthy : JSVal → Bool
  | .undefined => false
  | .null => false
  | .boolean b => b
  | .number n => n != 0
  | .str s => !(s == "")
  | .arr _ => true
  | .obj _ => true
  | .closure _ => true

/-- Only function values are callable; calling any other value raises a
`TypeError` in JavaScript. -/
def JSVal.callable : JSVal → Bool
  | .closure _ => true
  | _ => false

/-- Whether a value is a string. -/
def JSVal.isStr : JSVal → Bool
  | .str _ => true
  | _ => false

/-- The key of the first field of an object literal, used to tell two
concrete object values apart. -/
def JSVal.firstKey : JSVal → Option String
  | .obj ((k, _) :: _) => some k
  | _ => none

/-- The state of the global `window` object: a total map from property
names to values (an absent property reads as `undefined`). -/
def Window : Type := String → JSVal

/-- The window with every property absent (`undefined`). -/
def Window.empty : Window := fun _ => JSVal.undefined

/-- Writing one property of the window. -/
def Window.set (w : Window) (k : String) (v : JSVal) : Window :=
  fun q => if q = k then v else w q

/-- The observable effect of evaluating one of the files on a given
window state: the calls made through window properties (property name and
the single argument), the global writes performed (property name and
value written, in order), and whether evaluation threw. -/
structure Effect where
  calls : List (String × JSVal)
  writes : List (String × JSVal)
  threw : Bool

/-- Evaluating the IIFE body shared by both files, line 7 of each source:
`if (window.register_implementors) {window.register_implementors(implementors);}
else {window.pending_implementors = implementors;}`, where `table` is the
value of the file's local `implementors` literal.  The condition is
JavaScript truthiness of `window.register_implementors`; in the true
branch the call expression invokes that value with the table as its only
argument when the value is callable and raises a `TypeError` otherwise;
the false branch assigns the table to `window.pending_implementors`. -/
def evalImplementorsScript (table : JSVal) (w : Window) : Effect :=
  if (w "register_implementors").truthy then
    if (w "register_implementors").callable then
      { calls := [("register_implementors", table)], writes := [], threw := false }
    else
      { calls := [], writes := [], threw := true }
  else
    { calls := [], writes := [("pending_implementors", table)], threw := false }

/-- Applying a list of global writes to a window state, in order. -/
def applyWrites (w : Window) : List (String × JSVal) → Window
  | [] => w
  | (k, v) :: rest => applyWrites (w.set k v) rest

/-- The window state after evaluating the script with the given table:
the initial window with the script's own writes applied. -/
def runImplementorsScript (table : JSVal) (w : Window) : Window :=
  applyWrites w (evalImplementorsScript table w).writes

/-- The literal `implementors` table of
src/api/implementors/wasmtime/component/func/typed/trait.Lower.js
(lines 1-6), translated value-for-value: each JS object field becomes a
key/value pair, each JS array a `JSVal.arr`, each JS string literal the
same string value. -/
def lowerImplementors : JSVal :=
  JSVal.obj [
    ("component_test_util",
     JSVal.arr [JSVal.arr [JSVal.str "impl Lower for <a class=\"struct\" href=\"component_test_util/struct.Float32.html\" title=\"struct component_test_util::Float32\">Float32</a>"],
      JSVal.arr [JSVal.str "impl Lower for <a class=\"struct\" href=\"component_test_util/struct.Float64.html\" title=\"struct component_test_util::Float64\">Float64</a>"]]),
    ("wasmtime",
     JSVal.arr []),
    ("wasmtime_wasi",
     JSVal.arr [JSVal.arr [JSVal.str "impl Lower for <a class=\"enum\" href=\"wasmtime_wasi/preview2/wasi/command/wasi/sockets/tcp/enum.ShutdownType.html\" title=\"enum wasmtime_wasi::preview2::wasi::command::wasi::sockets::tcp::ShutdownType\">ShutdownType</a>"],
      JSVal.arr [JSVal.str "impl Lower for <a class=\"struct\" href=\"wasmtime_wasi/preview2/wasi/command/wasi/sockets/udp/struct.Datagram.html\" title=\"struct wasmtime_wasi::preview2::wasi::command::wasi::sockets::udp::Datagram\">Datagram</a>"],
      JSVal.arr [JSVal.str "impl Lower for <a class=\"enum\" href=\"wasmtime_wasi/preview2/wasi/wasi/filesystem/filesystem/enum.Advice.html\" title=\"enum wasmtime_wasi::preview2::wasi::wasi::filesystem::filesystem::Advice\">Advice</a>"],
      JSVal.arr [JSVal.str "impl Lower for <a class=\"struct\" href=\"wasmtime_wasi/preview2/wasi/command/wasi/sockets/network/struct.Ipv6SocketAddress.html\" title=\"struct wasmtime_wasi::preview2::wasi::command::wasi::sockets::network::Ipv6SocketAddress\">Ipv6SocketAddress</a>"],
      JSVal.arr [JSVal.str "impl Lower for <a class=\"struct\" href=\"wasmtime_wasi/preview2/wasi/command/wasi/sockets/network/struct.Ipv4SocketAddress.html\" title=\"struct wasmtime_wasi::preview2::wasi::command::wasi::sockets::network::Ipv4SocketAddress\">Ipv4SocketAddress</a>"],
      JSVal.arr [JSVal.str "impl Lower for <a class=\"enum\" href=\"wasmtime_wasi/preview2/wasi/command/wasi/sockets/network/enum.IpSocketAddress.html\" title=\"enum wasmtime_wasi::preview2::wasi::command::wasi::sockets::network::IpSocketAddress\">IpSocketAddress</a>"],
      JSVal.arr [JSVal.str "impl Lower for <a class=\"enum\" href=\"wasmtime_wasi/preview2/wasi/wasi/filesystem/filesystem/enum.NewTimestamp.html\" title=\"enum wasmtime_wasi::preview2::wasi::wasi::filesystem::filesystem::NewTimestamp\">NewTimestamp</a>"],
      JSVal.arr [JSVal.str "impl Lower for <a class=\"struct\" href=\"wasmtime_wasi/preview2/wasi/command/wasi/clocks/wall_clock/struct.Datetime.html\" title=\"struct wasmtime_wasi::preview2::wasi::command::wasi::clocks::wall_clock::Datetime\">Datetime</a>"],
      JSVal.arr [JSVal.str "impl Lower for <a class=\"enum\" href=\"wasmtime_wasi/preview2/wasi/command/wasi/sockets/network/enum.IpAddressFamily.html\" title=\"enum wasmtime_wasi::preview2::wasi::command::wasi::sockets::network::IpAddressFamily\">IpAddressFamily</a>"],
      JSVal.arr [JSVal.str "impl Lower for <a class=\"struct\" href=\"wasmtime_wasi/preview2/wasi/wasi/filesystem/filesystem/struct.DescriptorStat.html\" title=\"struct wasmtime_wasi::preview2::wasi::wasi::filesystem::filesystem::DescriptorStat\">DescriptorStat</a>"],
      JSVal.arr [JSVal.str "impl Lower for <a class=\"struct\" href=\"wasmtime_wasi/preview2/wasi/wasi/filesystem/filesystem/struct.Modes.html\" title=\"struct wasmtime_wasi::preview2::wasi::wasi::filesystem::filesystem::Modes\">Modes</a>"],
      JSVal.arr [JSVal.str "impl Lower for <a class=\"enum\" href=\"wasmtime_wasi/preview2/wasi/wasi/filesystem/filesystem/enum.ErrorCode.html\" title=\"enum wasmtime_wasi::preview2::wasi::wasi::filesystem::filesystem::ErrorCode\">ErrorCode</a>"],
      JSVal.arr [JSVal.str "impl Lower for <a class=\"struct\" href=\"wasmtime_wasi/preview2/wasi/wasi/filesystem/filesystem/struct.DescriptorFlags.html\" title=\"struct wasmtime_wasi::preview2::wasi::wasi::filesystem::filesystem::DescriptorFlags\">DescriptorFlags</a>"],
      JSVal.arr [JSVal.str "impl Lower for <a class=\"struct\" href=\"wasmtime_wasi/preview2/wasi/wasi/filesystem/filesystem/struct.OpenFlags.html\" title=\"struct wasmtime_wasi::preview2::wasi::wasi::filesystem::filesystem::OpenFlags\">OpenFlags</a>"],
      JSVal.arr [JSVal.str "impl Lower for <a class=\"enum\" href=\"wasmtime_wasi/preview2/wasi/command/wasi/sockets/network/enum.IpAddress.html\" title=\"enum wasmtime_wasi::preview2::wasi::command::wasi::sockets::network::IpAddress\">IpAddress</a>"],
      JSVal.arr [JSVal.str "impl Lower for <a class=\"struct\" href=\"wasmtime_wasi/preview2/wasi/wasi/filesystem/filesystem/struct.DirectoryEntry.html\" title=\"struct wasmtime_wasi::preview2::wasi::wasi::filesystem::filesystem::DirectoryEntry\">DirectoryEntry</a>"],
      JSVal.arr [JSVal.str "impl Lower for <a class=\"struct\" href=\"wasmtime_wasi/preview2/wasi/wasi/clocks/wall_clock/struct.Datetime.html\" title=\"struct wasmtime_wasi::preview2::wasi::wasi::clocks::wall_clock::Datetime\">Datetime</a>"],
      JSVal.arr [JSVal.str "impl Lower for <a class=\"struct\" href=\"wasmtime_wasi/preview2/wasi/wasi/clocks/timezone/struct.TimezoneDisplay.html\" title=\"struct wasmtime_wasi::preview2::wasi::wasi::clocks::timezone::TimezoneDisplay\">TimezoneDisplay</a>"],
      JSVal.arr [JSVal.str "impl Lower for <a class=\"enum\" href=\"wasmtime_wasi/preview2/wasi/wasi/filesystem/filesystem/enum.AccessType.html\" title=\"enum wasmtime_wasi::preview2::wasi::wasi::filesystem::filesystem::AccessType\">AccessType</a>"],
      JSVal.arr [JSVal.str "impl Lower for <a class=\"struct\" href=\"wasmtime_wasi/preview2/wasi/wasi/io/streams/struct.StreamError.html\" title=\"struct wasmtime_wasi::preview2::wasi::wasi::io::streams::StreamError\">StreamError</a>"],
      JSVal.arr [JSVal.str "impl Lower for <a class=\"enum\" href=\"wasmtime_wasi/preview2/wasi/command/wasi/sockets/network/enum.ErrorCode.html\" title=\"enum wasmtime_wasi::preview2::wasi::command::wasi::sockets::network::ErrorCode\">ErrorCode</a>"],
      JSVal.arr [JSVal.str "impl Lower for <a class=\"struct\" href=\"wasmtime_wasi/preview2/wasi/wasi/filesystem/filesystem/struct.PathFlags.html\" title=\"struct wasmtime_wasi::preview2::wasi::wasi::filesystem::filesystem::PathFlags\">PathFlags</a>"],
      JSVal.arr [JSVal.str "impl Lower for <a class=\"enum\" href=\"wasmtime_wasi/preview2/wasi/wasi/filesystem/filesystem/enum.DescriptorType.html\" title=\"enum wasmtime_wasi::preview2::wasi::wasi::filesystem::filesystem::DescriptorType\">DescriptorType</a>"]]),
    ("wasmtime_wasi_http",
     JSVal.arr [JSVal.arr [JSVal.str "impl Lower for <a class=\"struct\" href=\"wasmtime_wasi_http/wasi/io/streams/struct.StreamError.html\" title=\"struct wasmtime_wasi_http::wasi::io::streams::StreamError\">StreamError</a>"],
      JSVal.arr [JSVal.str "impl Lower for <a class=\"struct\" href=\"wasmtime_wasi_http/wasi/http/types/struct.RequestOptions.html\" title=\"struct wasmtime_wasi_http::wasi::http::types::RequestOptions\">RequestOptions</a>"],
      JSVal.arr [JSVal.str "impl Lower for <a class=\"enum\" href=\"wasmtime_wasi_http/wasi/http/types/enum.Error.html\" title=\"enum wasmtime_wasi_http::wasi::http::types::Error\">Error</a>"],
      JSVal.arr [JSVal.str "impl Lower for <a class=\"enum\" href=\"wasmtime_wasi_http/wasi/http/types/enum.Method.html\" title=\"enum wasmtime_wasi_http::wasi::http::types::Method\">Method</a>"],
      JSVal.arr [JSVal.str "impl Lower for <a class=\"enum\" href=\"wasmtime_wasi_http/wasi/http/types/enum.Scheme.html\" title=\"enum wasmtime_wasi_http::wasi::http::types::Scheme\">Scheme</a>"],
      JSVal.arr [JSVal.str "impl Lower for <a class=\"struct\" href=\"wasmtime_wasi_http/wasi/clocks/timezone/struct.TimezoneDisplay.html\" title=\"struct wasmtime_wasi_http::wasi::clocks::timezone::TimezoneDisplay\">TimezoneDisplay</a>"],
      JSVal.arr [JSVal.str "impl Lower for <a class=\"struct\" href=\"wasmtime_wasi_http/wasi/clocks/wall_clock/struct.Datetime.html\" title=\"struct wasmtime_wasi_http::wasi::clocks::wall_clock::Datetime\">Datetime</a>"]]),
    ("wiggle",
     JSVal.arr [])
  ]

/-- The literal `implementors` table of src/unnamed/part_000
(lines 1-6), translated value-for-value. -/
def part000Implementors : JSVal :=
  JSVal.obj [
    ("cranelift_codegen",
     JSVal.arr [JSVal.arr [JSVal.str "impl&lt;\x27f&gt; <a class=\"trait\" href=\"https://doc.rust-lang.org/nightly/core/iter/traits/collect/trait.IntoIterator.html\" title=\"trait core::iter::traits::collect::IntoIterator\">IntoIterator</a> for &amp;\x27f <a class=\"struct\" href=\"cranelift_codegen/ir/layout/struct.Layout.html\" title=\"struct cranelift_codegen::ir::layout::Layout\">Layout</a>"]]),
    ("cranelift_entity",
     JSVal.arr [JSVal.arr [JSVal.str "impl&lt;\x27a, K, V&gt; <a class=\"trait\" href=\"https://doc.rust-lang.org/nightly/core/iter/traits/collect/trait.IntoIterator.html\" title=\"trait core::iter::traits::collect::IntoIterator\">IntoIterator</a> for &amp;\x27a mut <a class=\"struct\" href=\"cranelift_entity/struct.PrimaryMap.html\" title=\"struct cranelift_entity::PrimaryMap\">PrimaryMap</a>&lt;K, V&gt;<span class=\"where fmt-newline\">where\n    K: <a class=\"trait\" href=\"cranelift_entity/trait.EntityRef.html\" title=\"trait cranelift_entity::EntityRef\">EntityRef</a>,</span>"],
      JSVal.arr [JSVal.str "impl&lt;K, V&gt; <a class=\"trait\" href=\"https://doc.rust-lang.org/nightly/core/iter/traits/collect/trait.IntoIterator.html\" title=\"trait core::iter::traits::collect::IntoIterator\">IntoIterator</a> for <a class=\"struct\" href=\"cranelift_entity/struct.PrimaryMap.html\" title=\"struct cranelift_entity::PrimaryMap\">PrimaryMap</a>&lt;K, V&gt;<span class=\"where fmt-newline\">where\n    K: <a class=\"trait\" href=\"cranelift_entity/trait.EntityRef.html\" title=\"trait cranelift_entity::EntityRef\">EntityRef</a>,</span>"],
      JSVal.arr [JSVal.str "impl&lt;\x27a, K, V&gt; <a class=\"trait\" href=\"https://doc.rust-lang.org/nightly/core/iter/traits/collect/trait.IntoIterator.html\" title=\"trait core::iter::traits::collect::IntoIterator\">IntoIterator</a> for &amp;\x27a mut <a class=\"struct\" href=\"cranelift_entity/struct.BoxedSlice.html\" title=\"struct cranelift_entity::BoxedSlice\">BoxedSlice</a>&lt;K, V&gt;<span class=\"where fmt-newline\">where\n    K: <a class=\"trait\" href=\"cranelift_entity/trait.EntityRef.html\" title=\"trait cranelift_entity::EntityRef\">EntityRef</a>,</span>"],
      JSVal.arr [JSVal.str "impl&lt;\x27a, K, V&gt; <a class=\"trait\" href=\"https://doc.rust-lang.org/nightly/core/iter/traits/collect/trait.IntoIterator.html\" title=\"trait core::iter::traits::collect::IntoIterator\">IntoIterator</a> for &amp;\x27a <a class=\"struct\" href=\"cranelift_entity/struct.PrimaryMap.html\" title=\"struct cranelift_entity::PrimaryMap\">PrimaryMap</a>&lt;K, V&gt;<span class=\"where fmt-newline\">where\n    K: <a class=\"trait\" href=\"cranelift_entity/trait.EntityRef.html\" title=\"trait cranelift_entity::EntityRef\">EntityRef</a>,</span>"],
      JSVal.arr [JSVal.str "impl&lt;\x27a, K, V&gt; <a class=\"trait\" href=\"https://doc.rust-lang.org/nightly/core/iter/traits/collect/trait.IntoIterator.html\" title=\"trait core::iter::traits::collect::IntoIterator\">IntoIterator</a> for &amp;\x27a <a class=\"struct\" href=\"cranelift_entity/struct.BoxedSlice.html\" title=\"struct cranelift_entity::BoxedSlice\">BoxedSlice</a>&lt;K, V&gt;<span class=\"where fmt-newline\">where\n    K: <a class=\"trait\" href=\"cranelift_entity/trait.EntityRef.html\" title=\"trait cranelift_entity::EntityRef\">EntityRef</a>,</span>"],
      JSVal.arr [JSVal.str "impl&lt;\x27a, K, V&gt; <a class=\"trait\" href=\"https://doc.rust-lang.org/nightly/core/iter/traits/collect/trait.IntoIterator.html\" title=\"trait core::iter::traits::collect::IntoIterator\">IntoIterator</a> for &amp;\x27a <a class=\"struct\" href=\"cranelift_entity/struct.SparseMap.html\" title=\"struct cranelift_entity::SparseMap\">SparseMap</a>&lt;K, V&gt;<span class=\"where fmt-newline\">where\n    K: <a class=\"trait\" href=\"cranelift_entity/trait.EntityRef.html\" title=\"trait cranelift_entity::EntityRef\">EntityRef</a>,\n    V: <a class=\"trait\" href=\"cranelift_entity/trait.SparseMapValue.html\" title=\"trait cranelift_entity::SparseMapValue\">SparseMapValue</a>&lt;K&gt;,</span>"]]),
    ("reactor_tests",
     JSVal.arr [JSVal.arr [JSVal.str "impl <a class=\"trait\" href=\"https://doc.rust-lang.org/nightly/core/iter/traits/collect/trait.IntoIterator.html\" title=\"trait core::iter::traits::collect::IntoIterator\">IntoIterator</a> for <a class=\"struct\" href=\"reactor_tests/wasi/filesystem/filesystem/struct.OpenFlags.html\" title=\"struct reactor_tests::wasi::filesystem::filesystem::OpenFlags\">OpenFlags</a>"],
      JSVal.arr [JSVal.str "impl <a class=\"trait\" href=\"https://doc.rust-lang.org/nightly/core/iter/traits/collect/trait.IntoIterator.html\" title=\"trait core::iter::traits::collect::IntoIterator\">IntoIterator</a> for <a class=\"struct\" href=\"reactor_tests/wasi/filesystem/filesystem/struct.Modes.html\" title=\"struct reactor_tests::wasi::filesystem::filesystem::Modes\">Modes</a>"],
      JSVal.arr [JSVal.str "impl <a class=\"trait\" href=\"https://doc.rust-lang.org/nightly/core/iter/traits/collect/trait.IntoIterator.html\" title=\"trait core::iter::traits::collect::IntoIterator\">IntoIterator</a> for <a class=\"struct\" href=\"reactor_tests/wasi/filesystem/filesystem/struct.DescriptorFlags.html\" title=\"struct reactor_tests::wasi::filesystem::filesystem::DescriptorFlags\">DescriptorFlags</a>"],
      JSVal.arr [JSVal.str "impl <a class=\"trait\" href=\"https://doc.rust-lang.org/nightly/core/iter/traits/collect/trait.IntoIterator.html\" title=\"trait core::iter::traits::collect::IntoIterator\">IntoIterator</a> for <a class=\"struct\" href=\"reactor_tests/wasi/filesystem/filesystem/struct.PathFlags.html\" title=\"struct reactor_tests::wasi::filesystem::filesystem::PathFlags\">PathFlags</a>"]]),
    ("wasi_snapshot_preview1",
     JSVal.arr [JSVal.arr [JSVal.str "impl <a class=\"trait\" href=\"https://doc.rust-lang.org/nightly/core/iter/traits/collect/trait.IntoIterator.html\" title=\"trait core::iter::traits::collect::IntoIterator\">IntoIterator</a> for <a class=\"struct\" href=\"wasi_snapshot_preview1/bindings/wasi/filesystem/filesystem/struct.DescriptorFlags.html\" title=\"struct wasi_snapshot_preview1::bindings::wasi::filesystem::filesystem::DescriptorFlags\">DescriptorFlags</a>"],
      JSVal.arr [JSVal.str "impl <a class=\"trait\" href=\"https://doc.rust-lang.org/nightly/core/iter/traits/collect/trait.IntoIterator.html\" title=\"trait core::iter::traits::collect::IntoIterator\">IntoIterator</a> for <a class=\"struct\" href=\"wasi_snapshot_preview1/bindings/wasi/filesystem/filesystem/struct.Modes.html\" title=\"struct wasi_snapshot_preview1::bindings::wasi::filesystem::filesystem::Modes\">Modes</a>"],
      JSVal.arr [JSVal.str "impl <a class=\"trait\" href=\"https://doc.rust-lang.org/nightly/core/iter/traits/collect/trait.IntoIterator.html\" title=\"trait core::iter::traits::collect::IntoIterator\">IntoIterator</a> for <a class=\"struct\" href=\"wasi_snapshot_preview1/bindings/wasi/filesystem/filesystem/struct.OpenFlags.html\" title=\"struct wasi_snapshot_preview1::bindings::wasi::filesystem::filesystem::OpenFlags\">OpenFlags</a>"],
      JSVal.arr [JSVal.str "impl <a class=\"trait\" href=\"https://doc.rust-lang.org/nightly/core/iter/traits/collect/trait.IntoIterator.html\" title=\"trait core::iter::traits::collect::IntoIterator\">IntoIterator</a> for <a class=\"struct\" href=\"wasi_snapshot_preview1/bindings/wasi/filesystem/filesystem/struct.PathFlags.html\" title=\"struct wasi_snapshot_preview1::bindings::wasi::filesystem::filesystem::PathFlags\">PathFlags</a>"]]),
    ("wasmtime_environ",
     JSVal.arr [])
  ]

/-- The effect of evaluating trait.Lower.js on window state `w`. -/
def evalLower (w : Window) : Effect :=
  evalImplementorsScript lowerImplementors w

/-- The effect of evaluating part_000 on window state `w`. -/
def evalPart000 (w : Window) : Effect :=
  evalImplementorsScript part000Implementors w

/-- The window state after evaluating trait.Lower.js. -/
def runLower (w : Window) : Window :=
  runImplementorsScript lowerImplementors w

/-- The window state after evaluating part_000. -/
def runPart000 (w : Window) : Window :=
  runImplementorsScript part000Implementors w

/-- Whether `pat` occurs as a contiguous sublist of the second list.
Structural recursion so that concrete inputs evaluate by `rfl`. -/
def containsSub (pat : List Char) : List Char → Bool
  | [] => pat.isEmpty
  | c :: cs => pat.isPrefixOf (c :: cs) || containsSub pat cs

/-- Whether a string is an HTML link fragment: it contains an opening
anchor tag `<a ` and the closing tag `</a>`. -/
def isHtmlLinkString (s : String) : Bool :=
  containsSub "<a ".data s.data && containsSub "</a>".data s.data

/-- The shape of one entry of a library's array in these files: a
one-element JS array whose element is an HTML link string. -/
def descriptorOk : JSVal → Bool
  | JSVal.arr [JSVal.str s] => isHtmlLinkString s
  | _ => false

/-- The shape of a whole implementors table: an object literal whose
every field value is an array of entries of `descriptorOk` shape. -/
def tableWellFormed : JSVal → Bool
  | JSVal.obj fields => fields.all fun f =>
      match f.2 with
      | JSVal.arr entries => entries.all descriptorOk
      | _ => false
  | _ => false

/-- Looking a key up in a JS object literal. -/
def objLookup : JSVal → String → Option JSVal
  | JSVal.obj fields, k => fields.lookup k
  | _, _ => none

/-- Whether entry `i` of library `lib`'s array in table `t` is a string:
`some b` when the entry exists, `none` when it does not. -/
def entryIsString (t : JSVal) (lib : String) (i : Nat) : Option Bool :=
  match objLookup t lib with
  | some (JSVal.arr entries) => (entries.get? i).map JSVal.isStr
  | _ => none

/-- The values a file evaluation hands to the outside world: the
arguments of its calls followed by the values of its global writes. -/
def Effect.payloads (e : Effect) : List JSVal :=
  e.calls.map Prod.snd ++ e.writes.map Prod.snd

/-- A window state whose `register_implementors` holds a truthy value
that is not callable: the nonempty string "ready". -/
def wRegString : Window :=
  Window.empty.set "register_implementors" (JSVal.str "ready")

/-- A window state whose `register_implementors` holds a callable
function value. -/
def wRegClosure : Window :=
  Window.empty.set "register_implementors" (JSVal.closure 0)

/-- A window state with only an unrelated property set;
`register_implementors` reads `undefined`. -/
def wOther : Window :=
  Window.empty.set "some_other_global" (JSVal.number 5)

/-- A callable value is truthy. -/
theorem JSVal.truthy_of_callable (v : JSVal) (h : v.callable = true) :
    v.truthy = true := by
  cases v <;> simp_all [JSVal.callable, JSVal.truthy]

/-- Reading the property just written. -/
theorem Window.set_self (w : Window) (k : String) (v : JSVal) :
    (w.set k v) k = v := by
  simp [Window.set]

/-- Reading a property other than the one written. -/
theorem Window.set_other (w : Window) (k q : String) (v : JSVal) (h : q ≠ k) :
    (w.set k v) q = w q := by
  simp [Window.set, h]

/-- Overwriting a property keeps only the later value. -/
theorem Window.set_set (w : Window) (k : String) (v v' : JSVal) :
    (w.set k v).set k v' = w.set k v' := by
  funext q
  by_cases h : q = k <;> simp [Window.set, h]

/-- Writing `pending_implementors` does not change `register_implementors`. -/
theorem set_pending_preserves_reg (w : Window) (t : JSVal) :
    (w.set "pending_implementors" t) "register_implementors"
      = w "register_implementors" :=
  Window.set_other w "pending_implementors" "register_implementors" t (by decide)

/-- The calls of one script evaluation: exactly one call, of
`window.register_implementors` with the table as its only argument, when
that value is callable, and none otherwise. -/
theorem evalImplementorsScript_calls (t : JSVal) (w : Window) :
    (evalImplementorsScript t w).calls
      = (if (w "register_implementors").callable
         then [("register_implementors", t)] else []) := by
  cases hc : (w "register_implementors").callable
  · cases h : (w "register_implementors").truthy <;>
      simp [evalImplementorsScript, h, hc]
  · have h := JSVal.truthy_of_callable _ hc
    simp [evalImplementorsScript, h, hc]

/-- The writes of one script evaluation: exactly one write, of the table
to `window.pending_implementors`, when `window.register_implementors` is
falsy, and none otherwise. -/
theorem evalImplementorsScript_writes (t : JSVal) (w : Window) :
    (evalImplementorsScript t w).writes
      = (if (w "register_implementors").truthy then []
         else [("pending_implementors", t)]) := by
  cases h : (w "register_implementors").truthy <;>
    cases hc : (w "register_implementors").callable <;>
      simp [evalImplementorsScript, h, hc]

/-- One script evaluation throws exactly when
`window.register_implementors` is truthy but not callable. -/
theorem evalImplementorsScript_threw (t : JSVal) (w : Window) :
    (evalImplementorsScript t w).threw
      = ((w "register_implementors").truthy
          && !(w "register_implementors").callable) := by
  cases h : (w "register_implementors").truthy <;>
    cases hc : (w "register_implementors").callable <;>
      simp [evalImplementorsScript, h, hc]

/-- Running one script on a truthy `register_implementors` leaves the
window unchanged (the true branch writes nothing, whether the call
succeeds or throws). -/
theorem runImplementorsScript_of_truthy (t : JSVal) (w : Window)
    (h : (w "register_implementors").truthy = true) :
    runImplementorsScript t w = w := by
  cases hc : (w "register_implementors").callable <;>
    simp [runImplementorsScript, evalImplementorsScript, h, hc, applyWrites]

/-- Running one script on a falsy `register_implementors` assigns the
table to `window.pending_implementors` and changes nothing else. -/
theorem runImplementorsScript_of_falsy (t : JSVal) (w : Window)
    (h : (w "register_implementors").truthy = false) :
    runImplementorsScript t w = w.set "pending_implementors" t := by
  simp [runImplementorsScript, evalImplementorsScript, h, applyWrites]

/-- The window after one script evaluation, as one equation. -/
theorem runImplementorsScript_eq (t : JSVal) (w : Window) :
    runImplementorsScript t w
      = (if (w "register_implementors").truthy then w
         else w.set "pending_implementors" t) := by
  cases h : (w "register_implementors").truthy
  · rw [runImplementorsScript_of_falsy t w h]
    simp
  · rw [runImplementorsScript_of_truthy t w h]
    simp

/-- C1 counterexample: in the window state where
`window.register_implementors` holds the nonempty string "ready" — a set,
truthy value — evaluating trait.Lower.js neither invokes a registration
function (its call list is empty; a TypeError is thrown instead) nor
assigns the table to `window.pending_implementors` (which still reads
`undefined` afterwards), so neither branch the claim promises happens. -/
theorem claim1_counterexample :
    (wRegString "register_implementors").truthy = true ∧
    (evalLower wRegString).calls = [] ∧
    (evalLower wRegString).threw = true ∧
    (runLower wRegString) "pending_implementors" = JSVal.undefined :=
  ⟨rfl, rfl, rfl, rfl⟩

/-- C1 (amended): evaluating each source file constructs its literal
implementors table and dispatches on `window.register_implementors`: when
that value is callable it is invoked exactly once with the table as its
only argument and no window property changes; when it is falsy the table
is assigned to `window.pending_implementors` and nothing is called; when
it is truthy but not callable a TypeError is raised and neither happens. -/
theorem claim1_dispatch (w : Window) :
    (evalLower w).calls
      = (if (w "register_implementors").callable
         then [("register_implementors", lowerImplementors)] else []) ∧
    (evalPart000 w).calls
      = (if (w "register_implementors").callable
         then [("register_implementors", part000Implementors)] else []) ∧
    runLower w
      = (if (w "register_implementors").truthy then w
         else w.set "pending_implementors" lowerImplementors) ∧
    runPart000 w
      = (if (w "register_implementors").truthy then w
         else w.set "pending_implementors" part000Implementors) :=
  ⟨evalImplementorsScript_calls lowerImplementors w,
   evalImplementorsScript_calls part000Implementors w,
   runImplementorsScript_eq lowerImplementors w,
   runImplementorsScript_eq part000Implementors w⟩

/-- C2 counterexample: starting from the empty window (no callback
installed), evaluating trait.Lower.js and then part_000 leaves
`window.pending_implementors` holding part_000's table, which differs
from trait.Lower.js's table: the first file's pending table has been
discarded, not retained. -/
theorem claim2_counterexample :
    (runPart000 (runLower Window.empty)) "pending_implementors"
      = part000Implementors ∧
    part000Implementors ≠ lowerImplementors :=
  ⟨rfl, fun h => absurd (congrArg JSVal.firstKey h) (by decide)⟩

/-- C2 (amended): when `window.register_implementors` is falsy, each
file's table is stashed by plain assignment to
`window.pending_implementors`, overwriting any previously stashed value,
so after the two files are evaluated only the most recently evaluated
file's table remains pending. -/
theorem claim2_overwrite (w : Window)
    (h : (w "register_implementors").truthy = false) :
    (runPart000 (runLower w)) "pending_implementors" = part000Implementors ∧
    (runLower (runPart000 w)) "pending_implementors" = lowerImplementors := by
  have h1 : runLower w = w.set "pending_implementors" lowerImplementors :=
    runImplementorsScript_of_falsy lowerImplementors w h
  have h2 : runPart000 w = w.set "pending_implementors" part000Implementors :=
    runImplementorsScript_of_falsy part000Implementors w h
  constructor
  · have hreg : ((runLower w) "register_implementors").truthy = false := by
      rw [h1, set_pending_preserves_reg]
      exact h
    have h3 : runPart000 (runLower w)
        = (runLower w).set "pending_implementors" part000Implementors :=
      runImplementorsScript_of_falsy part000Implementors (runLower w) hreg
    rw [h3, Window.set_self]
  · have hreg : ((runPart000 w) "register_implementors").truthy = false := by
      rw [h2, set_pending_preserves_reg]
      exact h
    have h3 : runLower (runPart000 w)
        = (runPart000 w).set "pending_implementors" lowerImplementors :=
      runImplementorsScript_of_falsy lowerImplementors (runPart000 w) hreg
    rw [h3, Window.set_self]

/-- C2 witness: the amended overwrite behaviour at the empty window. -/
theorem claim2_witness :
    (runPart000 (runLower Window.empty)) "pending_implementors"
      = part000Implementors ∧
    (runLower (runPart000 Window.empty)) "pending_implementors"
      = lowerImplementors :=
  claim2_overwrite Window.empty rfl

/-- C3 counterexample: starting from a window with only an unrelated
property set (so `register_implementors` is falsy), the two evaluation
orders end in different global states: `window.pending_implementors`
holds part_000's table after one order and trait.Lower.js's table after
the other, and the two tables differ. -/
theorem claim3_counterexample :
    (runPart000 (runLower wOther)) "pending_implementors"
      = part000Implementors ∧
    (runLower (runPart000 wOther)) "pending_implementors"
      = lowerImplementors ∧
    lowerImplementors ≠ part000Implementors :=
  ⟨rfl, rfl, fun h => absurd (congrArg JSVal.firstKey h) (by decide)⟩

/-- C3 (amended): the two files do interact through the shared global
`window.pending_implementors`: when `window.register_implementors` is
truthy, evaluating the two files in either order leaves the window
unchanged, so the orders agree; when it is falsy, each order ends with
exactly the last-evaluated file's table in `window.pending_implementors`,
so the two orders end in different global states. -/
theorem claim3_order (w : Window) :
    runPart000 (runLower w)
      = (if (w "register_implementors").truthy then w
         else w.set "pending_implementors" part000Implementors) ∧
    runLower (runPart000 w)
      = (if (w "register_implementors").truthy then w
         else w.set "pending_implementors" lowerImplementors) := by
  cases h : (w "register_implementors").truthy
  · have h1 : runLower w = w.set "pending_implementors" lowerImplementors :=
      runImplementorsScript_of_falsy lowerImplementors w h
    have h2 : runPart000 w = w.set "pending_implementors" part000Implementors :=
      runImplementorsScript_of_falsy part000Implementors w h
    have hr1 : ((runLower w) "register_implementors").truthy = false := by
      rw [h1, set_pending_preserves_reg]
      exact h
    have hr2 : ((runPart000 w) "register_implementors").truthy = false := by
      rw [h2, set_pending_preserves_reg]
      exact h
    have h3 : runPart000 (runLower w)
        = (runLower w).set "pending_implementors" part000Implementors :=
      runImplementorsScript_of_falsy part000Implementors (runLower w) hr1
    have h4 : runLower (runPart000 w)
        = (runPart000 w).set "pending_implementors" lowerImplementors :=
      runImplementorsScript_of_falsy lowerImplementors (runPart000 w) hr2
    constructor
    · rw [h3, h1, Window.set_set]
      simp
    · rw [h4, h2, Window.set_set]
      simp
  · have h1 : runLower w = w := runImplementorsScript_of_truthy lowerImplementors w h
    have h2 : runPart000 w = w := runImplementorsScript_of_truthy part000Implementors w h
    constructor
    · rw [h1, h2]
      simp
    · rw [h2, h1]
      simp

/-- C4 counterexample: two initial window states — the empty window and
one whose `register_implementors` is a function — on which evaluating
trait.Lower.js has different observable effects: from the first it writes
`pending_implementors` and calls nothing, from the second it writes
nothing and calls the callback; execution does branch on the
environment. -/
theorem claim4_counterexample :
    (evalLower Window.empty).writes
      = [("pending_implementors", lowerImplementors)] ∧
    (evalLower Window.empty).calls = [] ∧
    (evalLower wRegClosure).writes = [] ∧
    (evalLower wRegClosure).calls
      = [("register_implementors", lowerImplementors)] :=
  ⟨rfl, rfl, rfl, rfl⟩

/-- C4 (amended): each file's execution branches exactly once, on the
truthiness and callability of `window.register_implementors`: any two
initial window states that agree on those two bits produce identical
observable effects (the same calls, the same writes with the same values,
the same throw behaviour). -/
theorem claim4_branch (w ww : Window)
    (h : (w "register_implementors").truthy
        = (ww "register_implementors").truthy)
    (hc : (w "register_implementors").callable
        = (ww "register_implementors").callable) :
    evalLower w = evalLower ww ∧ evalPart000 w = evalPart000 ww := by
  constructor
  · simp only [evalLower, evalImplementorsScript]
    rw [h, hc]
  · simp only [evalPart000, evalImplementorsScript]
    rw [h, hc]

/-- C4 witness: the empty window and a window with an unrelated property
set agree on the branch condition, and the effects coincide. -/
theorem claim4_witness :
    evalLower Window.empty = evalLower wOther ∧
    evalPart000 Window.empty = evalPart000 wOther :=
  claim4_branch Window.empty wOther rfl rfl

/-- C5 counterexample: evaluating trait.Lower.js on the empty window
changes the global `window.pending_implementors` from `undefined` to the
file's table: the files are not state-free. -/
theorem claim5_counterexample :
    (runLower Window.empty) "pending_implementors" = lowerImplementors ∧
    Window.empty "pending_implementors" = JSVal.undefined ∧
    lowerImplementors ≠ JSVal.undefined :=
  ⟨rfl, rfl, fun h => absurd (congrArg JSVal.firstKey h) (by decide)⟩

/-- C5 (amended): evaluating a source file leaves every window property
other than `pending_implementors` unchanged; `pending_implementors`
itself is unchanged when `window.register_implementors` is truthy and is
set to the file's table when it is falsy. -/
theorem claim5_frame (w : Window) (k : String) :
    runLower w k
      = (if k = "pending_implementors"
            ∧ (w "register_implementors").truthy = false
         then lowerImplementors else w k) ∧
    runPart000 w k
      = (if k = "pending_implementors"
            ∧ (w "register_implementors").truthy = false
         then part000Implementors else w k) := by
  cases h : (w "register_implementors").truthy
  · have h1 : runLower w = w.set "pending_implementors" lowerImplementors :=
      runImplementorsScript_of_falsy lowerImplementors w h
    have h2 : runPart000 w = w.set "pending_implementors" part000Implementors :=
      runImplementorsScript_of_falsy part000Implementors w h
    rw [h1, h2]
    by_cases hk : k = "pending_implementors" <;> simp [Window.set, hk]
  · have h1 : runLower w = w := runImplementorsScript_of_truthy lowerImplementors w h
    have h2 : runPart000 w = w := runImplementorsScript_of_truthy part000Implementors w h
    rw [h1, h2]
    simp

/-- C6 counterexample: in the window state where
`window.register_implementors` holds the truthy non-callable string
"ready", evaluating either source file raises a TypeError (the call
expression `window.register_implementors(implementors)` is applied to a
non-function), contradicting the claim that evaluation always completes
without error. -/
theorem claim6_counterexample :
    (wRegString "register_implementors").truthy = true ∧
    (wRegString "register_implementors").callable = false ∧
    (evalLower wRegString).threw = true ∧
    (evalPart000 wRegString).threw = true :=
  ⟨rfl, rfl, rfl, rfl⟩

/-- C6 (amended): evaluating each source file completes without error in
every window state where `window.register_implementors` is falsy or
callable; it raises a TypeError exactly in the states where that value is
truthy but not a callable function. -/
theorem claim6_error (w : Window) :
    (evalLower w).threw
      = ((w "register_implementors").truthy
          && !(w "register_implementors").callable) ∧
    (evalPart000 w).threw
      = ((w "register_implementors").truthy
          && !(w "register_implementors").callable) :=
  ⟨evalImplementorsScript_threw lowerImplementors w,
   evalImplementorsScript_threw part000Implementors w⟩

/-- C7: evaluating a single source file performs at most one global
write: none when `window.register_implementors` is truthy, and exactly
one — the file's table into `window.pending_implementors` — when it is
falsy; no other window property is ever written. -/
theorem claim7_single_write (w : Window) :
    (evalLower w).writes
      = (if (w "register_implementors").truthy then []
         else [("pending_implementors", lowerImplementors)]) ∧
    (evalPart000 w).writes
      = (if (w "register_implementors").truthy then []
         else [("pending_implementors", part000Implementors)]) ∧
    (evalLower w).writes.length ≤ 1 ∧
    (evalPart000 w).writes.length ≤ 1 := by
  have h1 : (evalLower w).writes
      = (if (w "register_implementors").truthy then []
         else [("pending_implementors", lowerImplementors)]) :=
    evalImplementorsScript_writes lowerImplementors w
  have h2 : (evalPart000 w).writes
      = (if (w "register_implementors").truthy then []
         else [("pending_implementors", part000Implementors)]) :=
    evalImplementorsScript_writes part000Implementors w
  refine ⟨h1, h2, ?_, ?_⟩
  · rw [h1]
    split <;> simp
  · rw [h2]
    split <;> simp

/-- C8 counterexample: entry 0 of library "component_test_util" in
trait.Lower.js's table, and entry 0 of library "cranelift_codegen" in
part_000's table, exist and are not strings (each is a one-element JS
array holding the HTML link string), contradicting the claim that each
entry of each library's array is itself an HTML link string. -/
theorem claim8_counterexample :
    entryIsString lowerImplementors "component_test_util" 0 = some false ∧
    entryIsString part000Implementors "cranelift_codegen" 0 = some false :=
  ⟨rfl, rfl⟩

set_option maxRecDepth 100000 in
/-- C8 (amended): the value each file registers — the argument of its one
registration call, or the value written to `window.pending_implementors`
— is exactly its static literal table, unmodified; the table maps
library-name strings to ordered sequences of entries, where each entry is
a one-element array whose element is an HTML link string (not the string
itself). -/
theorem claim8_table (w : Window) :
    (evalLower w).payloads
      = (if (w "register_implementors").truthy
            && !(w "register_implementors").callable
         then [] else [lowerImplementors]) ∧
    (evalPart000 w).payloads
      = (if (w "register_implementors").truthy
            && !(w "register_implementors").callable
         then [] else [part000Implementors]) ∧
    tableWellFormed lowerImplementors = true ∧
    tableWellFormed part000Implementors = true := by
  refine ⟨?_, ?_, by decide, by decide⟩
  · cases h : (w "register_implementors").truthy <;>
      cases hc : (w "register_implementors").callable <;>
        simp [Effect.payloads, evalLower, evalImplementorsScript, h, hc]
  · cases h : (w "register_implementors").truthy <;>
      cases hc : (w "register_implementors").callable <;>
        simp [Effect.payloads, evalPart000, evalImplementorsScript, h, hc]

/-- C9: the two branches are mutually exclusive in effect: when
`window.register_implementors` is truthy, `window.pending_implementors`
is left unchanged (first two conjuncts, truthy case), and when it is
falsy, no registration function is invoked (last two conjuncts: the call
list is nonempty only for a callable — hence truthy — value). -/
theorem claim9_branch_exclusive (w : Window) :
    (runLower w) "pending_implementors"
      = (if (w "register_implementors").truthy
         then w "pending_implementors" else lowerImplementors) ∧
    (runPart000 w) "pending_implementors"
      = (if (w "register_implementors").truthy
         then w "pending_implementors" else part000Implementors) ∧
    (evalLower w).calls
      = (if (w "register_implementors").callable
         then [("register_implementors", lowerImplementors)] else []) ∧
    (evalPart000 w).calls
      = (if (w "register_implementors").callable
         then [("register_implementors", part000Implementors)] else []) := by
  refine ⟨?_, ?_, evalImplementorsScript_calls lowerImplementors w,
    evalImplementorsScript_calls part000Implementors w⟩
  · cases h : (w "register_implementors").truthy
    · have h1 : runLower w = w.set "pending_implementors" lowerImplementors :=
        runImplementorsScript_of_falsy lowerImplementors w h
      rw [h1, Window.set_self]
      simp
    · have h1 : runLower w = w := runImplementorsScript_of_truthy lowerImplementors w h
      rw [h1]
      simp
  · cases h : (w "register_implementors").truthy
    · have h1 : runPart000 w = w.set "pending_implementors" part000Implementors :=
        runImplementorsScript_of_falsy part000Implementors w h
      rw [h1, Window.set_self]
      simp
    · have h1 : runPart000 w = w := runImplementorsScript_of_truthy part000Implementors w h
      rw [h1]
      simp

/-- C10: re-evaluating the same file is idempotent when no callback is
installed: starting from any window where `window.register_implementors`
is falsy, evaluating a file twice leaves `window.pending_implementors`
holding the same table as evaluating it once. -/
theorem claim10_idempotent (w : Window)
    (h : (w "register_implementors").truthy = false) :
    (runLower (runLower w)) "pending_implementors"
      = (runLower w) "pending_implementors" ∧
    (runPart000 (runPart000 w)) "pending_implementors"
      = (runPart000 w) "pending_implementors" := by
  have h1 : runLower w = w.set "pending_implementors" lowerImplementors :=
    runImplementorsScript_of_falsy lowerImplementors w h
  have h2 : runPart000 w = w.set "pending_implementors" part000Implementors :=
    runImplementorsScript_of_falsy part000Implementors w h
  have hr1 : ((runLower w) "register_implementors").truthy = false := by
    rw [h1, set_pending_preserves_reg]
    exact h
  have hr2 : ((runPart000 w) "register_implementors").truthy = false := by
    rw [h2, set_pending_preserves_reg]
    exact h
  have h3 : runLower (runLower w)
      = (runLower w).set "pending_implementors" lowerImplementors :=
    runImplementorsScript_of_falsy lowerImplementors (runLower w) hr1
  have h4 : runPart000 (runPart000 w)
      = (runPart000 w).set "pending_implementors" part000Implementors :=
    runImplementorsScript_of_falsy part000Implementors (runPart000 w) hr2
  constructor
  · rw [h3, Window.set_self, h1, Window.set_self]
  · rw [h4, Window.set_self, h2, Window.set_self]

/-- C10 witness: idempotence at the empty window. -/
theorem claim10_witness :
    (runLower (runLower Window.empty)) "pending_implementors"
      = (runLower Window.empty) "pending_implementors" ∧
    (runPart000 (runPart000 Window.empty)) "pending_implementors"
      = (runPart000 Window.empty) "pending_implementors" :=
  claim10_idempotent Window.empty rfl
